import Mathlib

/-!
Verification development for the SecureChat repository: a WebSocket room
relay (server), a client-side symmetric-channel CryptoManager, a client
VoiceManager (peer-connection negotiator), and the SecureChatApp shell.

The server relay is embedded as a pure step function over an explicit
relay state; the per-connection closure variable `userGroup` of the
source becomes a finite map from connection ids to group ids, and the
`groups` JavaScript Map becomes an insertion-ordered association list.
External collaborators (WebCrypto AES-GCM, TextEncoder, btoa/atob) are
modelled as a provider record of abstract functions; their standard
correctness laws appear as explicit hypotheses of the theorems that
need them.
-/

namespace SecureChat

/-! ## Association-list primitives (JavaScript Map / per-connection variable) -/

/-- Lookup in an association list, first match wins (JS Map semantics). -/
def alookup {α β : Type} [DecidableEq α] : List (α × β) → α → Option β
  | [], _ => none
  | p :: t, k => if p.1 = k then some p.2 else alookup t k

/-- `Map.set`: replace in place if the key exists, else append. -/
def aset {α β : Type} [DecidableEq α] : List (α × β) → α → β → List (α × β)
  | [], k, v => [(k, v)]
  | p :: t, k, v => if p.1 = k then (k, v) :: t else p :: aset t k v

/-- Remove every binding of a key (clearing the per-connection variable). -/
def aerase {α β : Type} [DecidableEq α] : List (α × β) → α → List (α × β)
  | [], _ => []
  | p :: t, k => if p.1 = k then aerase t k else p :: aerase t k

theorem alookup_aset_self {α β : Type} [DecidableEq α]
    (l : List (α × β)) (k : α) (v : β) : alookup (aset l k v) k = some v := by
  induction l with
  | nil => simp [aset, alookup]
  | cons p t ih =>
    by_cases h : p.1 = k
    · simp [aset, h, alookup]
    · simp [aset, h, alookup, ih]

theorem alookup_aset_ne {α β : Type} [DecidableEq α]
    (l : List (α × β)) (k k2 : α) (v : β) (h : k2 ≠ k) :
    alookup (aset l k v) k2 = alookup l k2 := by
  induction l with
  | nil => simp [aset, alookup, Ne.symm h]
  | cons p t ih =>
    by_cases hp : p.1 = k
    · subst hp
      simp [aset, alookup, Ne.symm h]
    · simp [aset, hp, alookup, ih]

theorem alookup_aerase_self {α β : Type} [DecidableEq α]
    (l : List (α × β)) (k : α) : alookup (aerase l k) k = none := by
  induction l with
  | nil => simp [aerase, alookup]
  | cons p t ih =>
    by_cases h : p.1 = k
    · simp [aerase, h, ih]
    · simp [aerase, h, alookup, ih]

theorem alookup_aset_isSome {α β : Type} [DecidableEq α]
    (l : List (α × β)) (k k2 : α) (v : β) (h : (alookup l k2).isSome) :
    (alookup (aset l k v) k2).isSome := by
  by_cases hk : k2 = k
  · subst hk
    simp [alookup_aset_self]
  · rwa [alookup_aset_ne l k k2 v hk]

/-! ## The room relay (server, `server.js`) -/

/-- Wire messages sent by the server to clients. -/
inductive ServerMsg : Type
  | group_created (groupId : String)
  | joined_group (groupId : String)
  | left_group (groupId : String)
  | chat_message (content : String) (sender : String) (timestamp : Nat)
  | call_allowed (callType : String)
  | encrypted_signaling (data : String)
  | error (message : String)
deriving DecidableEq, Repr

/-- Wire messages received by the server.  `create_group` carries the
fresh uuid the server draws (the source's `uuidv4()` made explicit);
`malformed` stands for a frame that fails `JSON.parse`. -/
inductive ClientMsg : Type
  | create_group (newId : String)
  | join_group (groupId : String)
  | leave_group
  | chat_message (content : String)
  | start_call (callType : String)
  | encrypted_signaling (data : String)
  | unknown_type (t : String)
  | malformed
deriving DecidableEq, Repr

/-- Relay state: the `groups` Map (room id to member connection ids, a
`Set` kept as an insertion-ordered duplicate-free list) and the
per-connection `userGroup` closure variables (connection id to the id
of the group object it references; group objects are never removed
from the map, so the id determines the object). -/
structure RelayState : Type where
  groups : List (String × List Nat)
  userGroup : List (Nat × String)
deriving DecidableEq, Repr

/-- The relay state before any message: empty map, no connection in a group. -/
def initialRelay : RelayState := ⟨[], []⟩

/-- `Set.add`: a no-op when the element is present, else appended. -/
def addMember (l : List Nat) (c : Nat) : List Nat :=
  if c ∈ l then l else l ++ [c]

/-- `Set.delete`. -/
def removeMember (l : List Nat) (c : Nat) : List Nat :=
  l.filter (fun m => decide (m ≠ c))

/-- `Group.broadcast(message, exceptWs)`: send `msg` to every member other
than `exceptWs` whose `readyState === 1`; `opn` is the transport's
readyState-is-open predicate.  Returns the list of (recipient, message)
sends actually performed. -/
def broadcast (members : List Nat) (opn : Nat → Bool) (exceptWs : Option Nat)
    (msg : ServerMsg) : List (Nat × ServerMsg) :=
  (members.filter (fun m => decide (some m ≠ exceptWs) && opn m)).map
    (fun m => (m, msg))

/-- The server's `ws.on('message')` dispatch, as a pure step: given the
open-state predicate `opn`, the per-connection uuid map `uid`, the
current time `now`, the relay state, the sender connection `c` and the
parsed message, it returns the next state and the list of sends. -/
def handleMessage (opn : Nat → Bool) (uid : Nat → String) (now : Nat)
    (st : RelayState) (c : Nat) (msg : ClientMsg) :
    RelayState × List (Nat × ServerMsg) :=
  match msg with
  | .create_group newId =>
      (⟨aset st.groups newId (addMember [] c), aset st.userGroup c newId⟩,
       [(c, .group_created newId)])
  | .join_group gid =>
      let groups1 := if (alookup st.groups gid).isSome then st.groups
                     else aset st.groups gid []
      let members := (alookup groups1 gid).getD []
      (⟨aset groups1 gid (addMember members c), aset st.userGroup c gid⟩,
       [(c, .joined_group gid)])
  | .leave_group =>
      match alookup st.userGroup c with
      | none => (st, [])
      | some gid =>
          let groups2 := match alookup st.groups gid with
            | none => st.groups
            | some members => aset st.groups gid (removeMember members c)
          (⟨groups2, aerase st.userGroup c⟩, [(c, .left_group gid)])
  | .chat_message content =>
      match alookup st.userGroup c with
      | none => (st, [(c, .error "Not in a group")])
      | some gid =>
          (st, broadcast ((alookup st.groups gid).getD []) opn (some c)
                (.chat_message content (uid c) now))
  | .start_call callType =>
      match alookup st.userGroup c with
      | none => (st, [(c, .error "Not in a group")])
      | some _ => (st, [(c, .call_allowed callType)])
  | .encrypted_signaling d =>
      match alookup st.userGroup c with
      | none => (st, [])
      | some gid =>
          (st, broadcast ((alookup st.groups gid).getD []) opn (some c)
                (.encrypted_signaling d))
  | .unknown_type _ => (st, [(c, .error "Unknown message type")])
  | .malformed => (st, [(c, .error "Invalid JSON")])

/-- The server's `ws.on('close')` handler: if the connection is in a
group, remove it from that group's member set; nothing else changes. -/
def handleClose (st : RelayState) (c : Nat) : RelayState :=
  match alookup st.userGroup c with
  | none => st
  | some gid =>
      match alookup st.groups gid with
      | none => st
      | some members => ⟨aset st.groups gid (removeMember members c), st.userGroup⟩

/-- The state after a connection processes `leave_group`. -/
def leaveState (opn : Nat → Bool) (uid : Nat → String) (now : Nat)
    (st : RelayState) (c : Nat) : RelayState :=
  (handleMessage opn uid now st c .leave_group).1

/-- A concrete all-open transport environment, for concrete evaluations. -/
def allOpen : Nat → Bool := fun _ => true

/-- A concrete uuid assignment, for concrete evaluations. -/
def anyUid : Nat → String := fun _ => "u"

theorem mem_broadcast {S : List Nat} {opn : Nat → Bool} {c r : Nat}
    {msg m : ServerMsg} :
    (r, m) ∈ broadcast S opn (some c) msg ↔
      (r ∈ S ∧ r ≠ c ∧ opn r = true ∧ m = msg) := by
  simp only [broadcast, List.mem_map, List.mem_filter, Bool.and_eq_true,
    decide_eq_true_eq, Prod.mk.injEq]
  constructor
  · rintro ⟨a, ⟨ha, hne, hop⟩, rfl, rfl⟩
    exact ⟨ha, fun hh => hne (by simp [hh]), hop, rfl⟩
  · rintro ⟨hr, hne, hop, rfl⟩
    exact ⟨r, ⟨hr, by simp [hne], hop⟩, rfl, rfl⟩

/-! ## The symmetric channel (`client/features/crypto.js`) -/

/-- Byte strings, as lists of byte values. -/
abbrev Bytes := List Nat

/-- The external collaborators of `CryptoManager`: WebCrypto AES-GCM
(under a key identified by a `Nat` handle), `TextEncoder`/`TextDecoder`,
and `btoa`/`atob`.  A throwing operation is modelled as returning
`none`; `TextDecoder.decode` never throws in its default configuration,
so it is total. -/
structure CryptoProvider : Type where
  textEncode : String → Bytes
  textDecode : Bytes → String
  gcmEncrypt : Nat → Bytes → Bytes → Option Bytes
  gcmDecrypt : Nat → Bytes → Bytes → Option Bytes
  btoa : Bytes → String
  atob : String → Option Bytes

/-- `CryptoManager.encryptMessage`: if `sharedKey` is not ready the
message itself is returned; otherwise the message is UTF-8 encoded,
AES-GCM encrypted under the fresh 12-byte `iv` (the source's
`getRandomValues(new Uint8Array(12))`, made an explicit argument), the
iv is prepended and the result base64 encoded; any failure inside the
`try` falls back to returning the message unencrypted. -/
def encryptMessage (p : CryptoProvider) (sharedKey : Option Nat) (iv : Bytes)
    (message : String) : String :=
  match sharedKey with
  | none => message
  | some k =>
      match p.gcmEncrypt k iv (p.textEncode message) with
      | none => message
      | some ct => p.btoa (iv ++ ct)

/-- The body of `decryptMessage`'s `try` block: base64 decode, split the
leading 12 bytes as iv, AES-GCM decrypt the remainder, UTF-8 decode. -/
def decryptAttempt (p : CryptoProvider) (k : Nat) (s : String) : Option String :=
  match p.atob s with
  | none => none
  | some combined =>
      match p.gcmDecrypt k (combined.take 12) (combined.drop 12) with
      | none => none
      | some data => some (p.textDecode data)

/-- `CryptoManager.decryptMessage`: if `sharedKey` is not ready the input
is returned as-is; otherwise the decryption is attempted and on ANY
failure the `catch` returns the input string unchanged (the source's
"Fallback to showing encrypted text"). -/
def decryptMessage (p : CryptoProvider) (sharedKey : Option Nat)
    (encryptedMessage : String) : String :=
  match sharedKey with
  | none => encryptedMessage
  | some k => (decryptAttempt p k encryptedMessage).getD encryptedMessage

/-- A concrete provider whose cipher is the identity and whose base64 is
the identity on character codes; it satisfies the round-trip laws at
the concrete inputs the witnesses use. -/
def plainProvider : CryptoProvider where
  textEncode := fun s => s.toList.map Char.toNat
  textDecode := fun b => String.mk (b.map Char.ofNat)
  gcmEncrypt := fun _ _ d => some d
  gcmDecrypt := fun _ _ c => some c
  btoa := fun b => String.mk (b.map Char.ofNat)
  atob := fun s => some (s.toList.map Char.toNat)

/-- A concrete provider whose decryption authenticates: only the genuine
ciphertext of the message "hi" (bytes `[104, 105]`) decrypts; every
other input is rejected, as an AES-GCM tag check would. -/
def authProvider : CryptoProvider where
  textEncode := fun s => s.toList.map Char.toNat
  textDecode := fun b => String.mk (b.map Char.ofNat)
  gcmEncrypt := fun _ _ d => some d
  gcmDecrypt := fun _ _ c => if c = [104, 105] then some c else none
  btoa := fun b => String.mk (b.map Char.ofNat)
  atob := fun s => some (s.toList.map Char.toNat)

/-- A concrete provider whose encryption always throws. -/
def failProvider : CryptoProvider where
  textEncode := fun s => s.toList.map Char.toNat
  textDecode := fun b => String.mk (b.map Char.ofNat)
  gcmEncrypt := fun _ _ _ => none
  gcmDecrypt := fun _ _ c => some c
  btoa := fun b => String.mk (b.map Char.ofNat)
  atob := fun s => some (s.toList.map Char.toNat)

/-- The transport string `encryptMessage` produces for plaintext "hi"
under `authProvider` with the all-zero 12-byte nonce. -/
def goodCipher : String := encryptMessage authProvider (some 0) (List.replicate 12 0) "hi"

/-- `goodCipher` with a single bit flipped: its last byte 105 becomes
104 (the low bit is cleared), every other byte unchanged. -/
def corruptCipher : String := String.mk ((List.replicate 12 0 ++ [104, 104]).map Char.ofNat)

/-! ## The call negotiator (`client/features/voice.js`) -/

/-- The mutable fields of `VoiceManager` that `endCall` touches or that
the teardown claims are about.  Handles (streams, peer connection, data
channel, timer) are modelled as optional opaque ids — `none` is the
source's `null`. -/
structure VoiceState : Type where
  localStream : Option Nat
  remoteStream : Option Nat
  peerConnection : Option Nat
  dataChannel : Option Nat
  isCallActive : Bool
  isMuted : Bool
  isCameraOff : Bool
  callStartTime : Option Nat
  callTimer : Option Nat
  signalingData : List (String × String)
  isInitiator : Bool
deriving DecidableEq, Repr

/-- `stopCallTimer`: clears the interval when one is set and nulls the
handle (a no-op on the handle when it is already null). -/
def stopCallTimer (s : VoiceState) : VoiceState :=
  { s with callTimer := none }

/-- `VoiceManager.endCall`: stop and null both streams, close and null
the data channel and the peer connection, clear `signalingData`, clear
`isCallActive`, stop the timer.  Every step is guarded by a null check
in the source, so the function is total from any state. -/
def endCall (s : VoiceState) : VoiceState :=
  stopCallTimer
    { s with localStream := none, remoteStream := none, dataChannel := none,
             peerConnection := none, signalingData := [], isCallActive := false }

/-! ## The app shell (`client/main.js`) and `startCall`'s send guards -/

/-- A WebSocket handle with its `readyState` (`1` is `OPEN`). -/
structure WsState : Type where
  readyState : Nat
deriving DecidableEq, Repr

/-- The guard `ws && ws.readyState === WebSocket.OPEN`; an undefined
`ws` (modelled `none`) makes it false. -/
def wsOpen : Option WsState → Bool
  | some w => w.readyState == 1
  | none => false

/-- An `encrypted_signaling` frame sent by the client to the relay. -/
structure SignalingOut : Type where
  data : String
  ephemeral : Bool
deriving DecidableEq, Repr

/-- The frames `VoiceManager.startCall` sends over the WebSocket: one
per locally gathered ICE candidate (each `onicecandidate` firing, with
the candidate already encrypted) and one for the encrypted offer —
each send guarded by `wsOpen ws`. -/
def startCallEmissions (ws : Option WsState) (candidateEncs : List String)
    (offerEnc : String) : List SignalingOut :=
  (if wsOpen ws then candidateEncs.map (fun d => ⟨d, true⟩) else []) ++
    (if wsOpen ws then [⟨offerEnc, true⟩] else [])

/-- The connection-handle fields of `SecureChatApp`.  The source assigns
only `this.wss`; `this.ws` is read (in the `call_allowed` case) but
never assigned, so it is the JS `undefined`, modelled `none`. -/
structure AppConn : Type where
  wss : Option WsState
  ws : Option WsState
deriving DecidableEq, Repr

/-- The app at construction: neither field assigned yet. -/
def initApp : AppConn := ⟨none, none⟩

/-- `connectWebSocket`: assigns `this.wss := new WebSocket(...)`; no
other method of `SecureChatApp` assigns either connection field. -/
def connectWebSocket (a : AppConn) (sock : WsState) : AppConn :=
  { a with wss := some sock }

/-- The `call_allowed` branch of `handleWebSocketMessage`: it invokes
`startCall(message.callType === 'video', this.ws)` — passing the never
assigned `ws` field — and the value of the handler is the list of
signaling frames that `startCall` emits. -/
def handleCallAllowed (a : AppConn) (candidateEncs : List String)
    (offerEnc : String) : List SignalingOut :=
  startCallEmissions a.ws candidateEncs offerEnc

/-! ## Helper lemmas -/

theorem mem_addMember_self (l : List Nat) (c : Nat) : c ∈ addMember l c := by
  by_cases h : c ∈ l <;> simp [addMember, h]

/-! ## The claims -/

/-- Claim C1: a `chat_message` from a connection `c` whose `userGroup`
references room `gid` with member set `S` is delivered to exactly the
members of `S` other than `c` whose transport readyState is open
(closed members are silently skipped), and to no connection outside
`S`: a pair `(r, m)` is sent iff `r` is another open member of `S` and
`m` is the relayed chat envelope. -/
theorem c1_broadcast_exactly_other_open_members
    (opn : Nat → Bool) (uid : Nat → String) (now : Nat) (st : RelayState)
    (c : Nat) (gid : String) (S : List Nat) (content : String)
    (r : Nat) (m : ServerMsg)
    (hug : alookup st.userGroup c = some gid)
    (hgr : alookup st.groups gid = some S) :
    (r, m) ∈ (handleMessage opn uid now st c (.chat_message content)).2 ↔
      (r ∈ S ∧ r ≠ c ∧ opn r = true ∧
        m = .chat_message content (uid c) now) := by
  simp only [handleMessage, hug, hgr, Option.getD_some]
  exact mem_broadcast

/-- Witness for C1: in a room "g" with members 0, 1, 2 where connection
2 is closed, a chat from 0 reaches exactly member 1. -/
theorem c1_broadcast_exactly_other_open_members_witness :
    alookup (RelayState.mk [("g", [0, 1, 2])] [(0, "g")]).userGroup 0 = some "g" ∧
    ((1, ServerMsg.chat_message "x" "u" 5) ∈
      (handleMessage (fun n => decide (n ≠ 2)) anyUid 5
        (RelayState.mk [("g", [0, 1, 2])] [(0, "g")]) 0 (.chat_message "x")).2 ↔
      (1 ∈ [0, 1, 2] ∧ 1 ≠ 0 ∧ (fun n => decide (n ≠ 2)) 1 = true ∧
        ServerMsg.chat_message "x" "u" 5 = .chat_message "x" (anyUid 0) 5)) :=
  ⟨rfl, c1_broadcast_exactly_other_open_members (fun n => decide (n ≠ 2)) anyUid 5
    (RelayState.mk [("g", [0, 1, 2])] [(0, "g")]) 0 "g" [0, 1, 2] "x" 1
    (ServerMsg.chat_message "x" "u" 5) rfl rfl⟩

/-- Claim C2: with the symmetric key initialized, and given the standard
correctness laws of the external providers at the values in play
(AES-GCM decryption inverts encryption, `atob` inverts `btoa`,
`TextDecoder` inverts `TextEncoder`, the nonce is 12 bytes,
encryption succeeds), `encryptMessage` produces the base64 encoding of
the 12-byte nonce followed by the ciphertext, and
`decryptMessage (encryptMessage P) = P`. -/
theorem c2_encrypt_decrypt_roundtrip
    (p : CryptoProvider) (k : Nat) (iv : Bytes) (P : String) (ct : Bytes)
    (hiv : iv.length = 12)
    (henc : p.gcmEncrypt k iv (p.textEncode P) = some ct)
    (hb64 : p.atob (p.btoa (iv ++ ct)) = some (iv ++ ct))
    (hdec : p.gcmDecrypt k iv ct = some (p.textEncode P))
    (htxt : p.textDecode (p.textEncode P) = P) :
    encryptMessage p (some k) iv P = p.btoa (iv ++ ct) ∧
    decryptMessage p (some k) (encryptMessage p (some k) iv P) = P := by
  have he : encryptMessage p (some k) iv P = p.btoa (iv ++ ct) := by
    simp [encryptMessage, henc]
  have ht : (iv ++ ct).take 12 = iv := by
    rw [← hiv]; exact List.take_left iv ct
  have hd : (iv ++ ct).drop 12 = ct := by
    rw [← hiv]; exact List.drop_left iv ct
  refine ⟨he, ?_⟩
  rw [he]
  simp [decryptMessage, decryptAttempt, hb64, ht, hd, hdec, htxt]

/-- Witness for C2: the round trip at plaintext "hi" with the identity
cipher provider and the all-zero 12-byte nonce. -/
theorem c2_encrypt_decrypt_roundtrip_witness :
    (List.replicate 12 0).length = 12 ∧
    plainProvider.gcmEncrypt 0 (List.replicate 12 0)
      (plainProvider.textEncode "hi") = some [104, 105] ∧
    (encryptMessage plainProvider (some 0) (List.replicate 12 0) "hi" =
      plainProvider.btoa (List.replicate 12 0 ++ [104, 105]) ∧
     decryptMessage plainProvider (some 0)
      (encryptMessage plainProvider (some 0) (List.replicate 12 0) "hi") = "hi") :=
  ⟨by decide, by decide,
   c2_encrypt_decrypt_roundtrip plainProvider 0 (List.replicate 12 0) "hi"
     [104, 105] (by decide) (by decide) (by decide) (by decide) (by decide)⟩

/-- Claim C3 counterexample: under a provider whose AES-GCM tag check
rejects the corrupted ciphertext, `corruptCipher` (which is
`goodCipher = encryptMessage "hi"` with the low bit of its last byte
flipped, 105 to 104) makes the inner decryption attempt fail, yet
`decryptMessage` does NOT signal any error to its caller: it returns
the corrupted transport string itself as the message, contradicting
the claim that decryption "fails with a CryptoError rather than
returning data". -/
theorem c3_counterexample_corruption_returned_as_data :
    decryptAttempt authProvider 0 corruptCipher = none ∧
    decryptMessage authProvider (some 0) corruptCipher = corruptCipher ∧
    corruptCipher ≠ goodCipher ∧
    authProvider.atob goodCipher = some (List.replicate 12 0 ++ [104, 105]) ∧
    authProvider.atob corruptCipher = some (List.replicate 12 0 ++ [104, 104]) := by
  decide

/-- Claim C3 as amended: when the inner decryption attempt fails (tag
mismatch, malformed input), `decryptMessage` catches the failure and
returns its input string unchanged — the caller receives the
undecryptable transport string as if it were the message, and no error
is raised. -/
theorem c3_amended_failure_swallowed (p : CryptoProvider) (k : Nat) (s : String)
    (h : decryptAttempt p k s = none) :
    decryptMessage p (some k) s = s := by
  simp [decryptMessage, h]

/-- Witness for the amended C3: the empty string fails authentication
and is returned unchanged. -/
theorem c3_amended_failure_swallowed_witness :
    decryptAttempt authProvider 0 "" = none ∧
    decryptMessage authProvider (some 0) "" = "" :=
  ⟨by decide, c3_amended_failure_swallowed authProvider 0 "" (by decide)⟩

/-- Claim C4 counterexample: an `encrypted_signaling` message from a
connection that is in no room produces NO reply at all — the handler
is `if (!userGroup) return;` — contradicting the claim that the relay
sends an error reply to the sender for all three message types.  (The
state is indeed unchanged.) -/
theorem c4_counterexample_signaling_no_error_reply :
    handleMessage allOpen anyUid 0 initialRelay 0 (.encrypted_signaling "x") =
      (initialRelay, []) := by
  decide

/-- Claim C4 as amended: from a connection in no room, `chat_message`
and `start_call` each produce an error reply to that sender only and
no state change, while `encrypted_signaling` is silently dropped: no
reply at all and no state change. -/
theorem c4_amended_not_in_room_replies
    (opn : Nat → Bool) (uid : Nat → String) (now : Nat) (st : RelayState)
    (c : Nat) (content callType d : String)
    (h : alookup st.userGroup c = none) :
    handleMessage opn uid now st c (.chat_message content) =
      (st, [(c, .error "Not in a group")]) ∧
    handleMessage opn uid now st c (.start_call callType) =
      (st, [(c, .error "Not in a group")]) ∧
    handleMessage opn uid now st c (.encrypted_signaling d) = (st, []) := by
  refine ⟨?_, ?_, ?_⟩ <;> simp [handleMessage, h]

/-- Witness for the amended C4 at the initial relay state. -/
theorem c4_amended_not_in_room_replies_witness :
    alookup initialRelay.userGroup 0 = none ∧
    (handleMessage allOpen anyUid 0 initialRelay 0 (.chat_message "m") =
      (initialRelay, [(0, .error "Not in a group")]) ∧
     handleMessage allOpen anyUid 0 initialRelay 0 (.start_call "voice") =
      (initialRelay, [(0, .error "Not in a group")]) ∧
     handleMessage allOpen anyUid 0 initialRelay 0 (.encrypted_signaling "d") =
      (initialRelay, [])) :=
  ⟨rfl, c4_amended_not_in_room_replies allOpen anyUid 0 initialRelay 0
    "m" "voice" "d" rfl⟩

/-- Claim C5 counterexample: the reachable state after connection 0
sends `create_group "g"` and then `leave_group` still has room "g" in
the map, with an empty member set — the relay never removes a room
entry, contradicting the claimed invariant. -/
theorem c5_counterexample_empty_room_persists :
    alookup (handleMessage allOpen anyUid 0
        (handleMessage allOpen anyUid 0 initialRelay 0 (.create_group "g")).1
        0 .leave_group).1.groups "g" = some [] := by
  decide

/-- Claim C5 as amended: room entries are never removed from the map:
every room present before a message or a transport close is still
present afterwards, so when the last member departs the entry remains,
with an empty member set. -/
theorem c5_amended_rooms_never_removed
    (opn : Nat → Bool) (uid : Nat → String) (now : Nat) (st : RelayState)
    (c : Nat) (msg : ClientMsg) (gid : String)
    (h : (alookup st.groups gid).isSome) :
    (alookup (handleMessage opn uid now st c msg).1.groups gid).isSome ∧
    (alookup (handleClose st c).groups gid).isSome := by
  constructor
  · cases msg with
    | create_group newId =>
        simpa only [handleMessage] using alookup_aset_isSome _ _ _ _ h
    | join_group gid2 =>
        simp only [handleMessage]
        apply alookup_aset_isSome
        split
        · exact h
        · exact alookup_aset_isSome _ _ _ _ h
    | leave_group =>
        simp only [handleMessage]
        cases hug : alookup st.userGroup c with
        | none => exact h
        | some gid2 =>
            simp only []
            cases hgr : alookup st.groups gid2 with
            | none => exact h
            | some members => exact alookup_aset_isSome _ _ _ _ h
    | chat_message content =>
        cases hug : alookup st.userGroup c <;> simp [handleMessage, hug, h]
    | start_call callType =>
        cases hug : alookup st.userGroup c <;> simp [handleMessage, hug, h]
    | encrypted_signaling d =>
        cases hug : alookup st.userGroup c <;> simp [handleMessage, hug, h]
    | unknown_type t => simpa [handleMessage] using h
    | malformed => simpa [handleMessage] using h
  · unfold handleClose
    cases hug : alookup st.userGroup c with
    | none => exact h
    | some gid2 =>
        simp only []
        cases hgr : alookup st.groups gid2 with
        | none => exact h
        | some members => exact alookup_aset_isSome _ _ _ _ h

/-- Witness for the amended C5: room "g" survives a `leave_group` by its
only member, and survives that member's transport close. -/
theorem c5_amended_rooms_never_removed_witness :
    (alookup (RelayState.mk [("g", [0])] [(0, "g")]).groups "g").isSome ∧
    ((alookup (handleMessage allOpen anyUid 0
        (RelayState.mk [("g", [0])] [(0, "g")]) 0 .leave_group).1.groups
        "g").isSome ∧
     (alookup (handleClose (RelayState.mk [("g", [0])] [(0, "g")]) 0).groups
        "g").isSome) :=
  ⟨rfl, c5_amended_rooms_never_removed allOpen anyUid 0
    (RelayState.mk [("g", [0])] [(0, "g")]) 0 .leave_group "g" rfl⟩

/-- Claim C6 counterexample: connection 0 joins room "a" and then joins
room "b"; afterwards it is STILL in "a"'s member set (while its
`userGroup` reference points at "b") — `join_group` does not remove
the connection from its previous room, contradicting the claimed
at-most-one-room invariant. -/
theorem c6_counterexample_still_in_old_room :
    alookup (handleMessage allOpen anyUid 0
        (handleMessage allOpen anyUid 0 initialRelay 0 (.join_group "a")).1
        0 (.join_group "b")).1.groups "a" = some [0] ∧
    alookup (handleMessage allOpen anyUid 0
        (handleMessage allOpen anyUid 0 initialRelay 0 (.join_group "a")).1
        0 (.join_group "b")).1.userGroup 0 = some "b" := by
  decide

/-- Claim C6 as amended: a connection that is a member of room `A` and
processes `join_group B` (with `B ≠ A`) remains in `A`'s member set,
is also added to `B`'s member set, and its `userGroup` reference — the
room its subsequent messages are broadcast to — becomes `B`. -/
theorem c6_amended_join_keeps_old_membership
    (opn : Nat → Bool) (uid : Nat → String) (now : Nat) (st : RelayState)
    (c : Nat) (A B : String) (hAB : A ≠ B)
    (hmem : c ∈ (alookup st.groups A).getD []) :
    c ∈ (alookup (handleMessage opn uid now st c (.join_group B)).1.groups
          A).getD [] ∧
    c ∈ (alookup (handleMessage opn uid now st c (.join_group B)).1.groups
          B).getD [] ∧
    alookup (handleMessage opn uid now st c (.join_group B)).1.userGroup c =
      some B := by
  simp only [handleMessage]
  refine ⟨?_, ?_, ?_⟩
  · rw [alookup_aset_ne _ _ _ _ hAB]
    split
    · exact hmem
    · rw [alookup_aset_ne _ _ _ _ hAB]; exact hmem
  · rw [alookup_aset_self]
    exact mem_addMember_self _ c
  · exact alookup_aset_self _ _ _

/-- Witness for the amended C6 at a concrete one-member room "a". -/
theorem c6_amended_join_keeps_old_membership_witness :
    ("a" ≠ "b" ∧ 0 ∈ (alookup (RelayState.mk [("a", [0])] [(0, "a")]).groups
        "a").getD []) ∧
    (0 ∈ (alookup (handleMessage allOpen anyUid 0
          (RelayState.mk [("a", [0])] [(0, "a")]) 0 (.join_group "b")).1.groups
          "a").getD [] ∧
     0 ∈ (alookup (handleMessage allOpen anyUid 0
          (RelayState.mk [("a", [0])] [(0, "a")]) 0 (.join_group "b")).1.groups
          "b").getD [] ∧
     alookup (handleMessage allOpen anyUid 0
          (RelayState.mk [("a", [0])] [(0, "a")]) 0
          (.join_group "b")).1.userGroup 0 = some "b") :=
  ⟨⟨by decide, by decide⟩,
   c6_amended_join_keeps_old_membership allOpen anyUid 0
     (RelayState.mk [("a", [0])] [(0, "a")]) 0 "a" "b" (by decide) (by decide)⟩

/-- Claim C7: `endCall` is total from every negotiator state (every
teardown step in the source is null-guarded, so it never raises), and
afterwards the negotiator is idle: `isCallActive` is false and the
local stream, remote stream, data channel and peer connection are all
null; a second `endCall` leaves that exact state unchanged. -/
theorem c7_endCall_idle_and_idempotent (s : VoiceState) :
    (endCall s).isCallActive = false ∧ (endCall s).localStream = none ∧
    (endCall s).remoteStream = none ∧ (endCall s).dataChannel = none ∧
    (endCall s).peerConnection = none ∧ endCall (endCall s) = endCall s :=
  ⟨rfl, rfl, rfl, rfl, rfl, rfl⟩

/-- Claim C8: `leave_group` from a connection in no room is a silent
no-op — no reply (in particular no error) and no state change — and
processing `leave_group` twice yields the same relay state as
processing it once. -/
theorem c8_leave_noop_and_idempotent (opn : Nat → Bool) (uid : Nat → String)
    (now : Nat) (st : RelayState) (c : Nat) :
    (alookup st.userGroup c = none →
      handleMessage opn uid now st c .leave_group = (st, [])) ∧
    leaveState opn uid now (leaveState opn uid now st c) c =
      leaveState opn uid now st c := by
  have hnone : ∀ st2 : RelayState, alookup st2.userGroup c = none →
      leaveState opn uid now st2 c = st2 := by
    intro st2 hh
    simp [leaveState, handleMessage, hh]
  constructor
  · intro h
    simp [handleMessage, h]
  · cases h : alookup st.userGroup c with
    | none =>
        rw [hnone st h]
        exact hnone st h
    | some gid =>
        have h2 : alookup (leaveState opn uid now st c).userGroup c = none := by
          simp [leaveState, handleMessage, h, alookup_aerase_self]
        exact hnone _ h2

/-- Witness for C8 at the initial relay state. -/
theorem c8_leave_noop_and_idempotent_witness :
    alookup initialRelay.userGroup 0 = none ∧
    handleMessage allOpen anyUid 0 initialRelay 0 .leave_group =
      (initialRelay, []) ∧
    leaveState allOpen anyUid 0 (leaveState allOpen anyUid 0 initialRelay 0) 0 =
      leaveState allOpen anyUid 0 initialRelay 0 :=
  ⟨rfl, (c8_leave_noop_and_idempotent allOpen anyUid 0 initialRelay 0).1 rfl,
   (c8_leave_noop_and_idempotent allOpen anyUid 0 initialRelay 0).2⟩

/-- Claim C9: with no symmetric key (initialization not yet complete)
`encryptMessage` returns the message itself, so the payload goes to
the relay as plaintext, and `decryptMessage` returns its input
unchanged; and when AES-GCM encryption throws, `encryptMessage` also
falls back to returning the plaintext message. -/
theorem c9_missing_key_plaintext_fallback (p : CryptoProvider) (iv : Bytes)
    (m s : String) (k : Nat)
    (h : p.gcmEncrypt k iv (p.textEncode m) = none) :
    encryptMessage p none iv m = m ∧ decryptMessage p none s = s ∧
    encryptMessage p (some k) iv m = m :=
  ⟨rfl, rfl, by simp [encryptMessage, h]⟩

/-- Witness for C9 with a provider whose encryption always throws. -/
theorem c9_missing_key_plaintext_fallback_witness :
    failProvider.gcmEncrypt 0 [] (failProvider.textEncode "x") = none ∧
    (encryptMessage failProvider none [] "x" = "x" ∧
     decryptMessage failProvider none "y" = "y" ∧
     encryptMessage failProvider (some 0) [] "x" = "x") :=
  ⟨rfl, c9_missing_key_plaintext_fallback failProvider [] "x" "y" 0 rfl⟩

/-- Claim C10: the `call_allowed` handler passes `this.ws`, a field no
code ever assigns (`connectWebSocket` writes `this.wss` and is the
only writer of a connection field), so inside `startCall` the guard
`ws && ws.readyState === WebSocket.OPEN` is false and no
`encrypted_signaling` frame — neither the encrypted offer nor any
gathered ICE candidate — is ever sent. -/
theorem c10_call_allowed_emits_nothing (a : AppConn) (sock : WsState)
    (cands : List String) (offerEnc : String)
    (h : a.ws = none) :
    initApp.ws = none ∧ (connectWebSocket a sock).ws = a.ws ∧
    handleCallAllowed a cands offerEnc = [] := by
  refine ⟨rfl, rfl, ?_⟩
  simp [handleCallAllowed, startCallEmissions, h, wsOpen]

/-- Witness for C10 at the freshly constructed app. -/
theorem c10_call_allowed_emits_nothing_witness :
    initApp.ws = none ∧
    (initApp.ws = none ∧ (connectWebSocket initApp ⟨1⟩).ws = initApp.ws ∧
     handleCallAllowed initApp ["cand"] "offer" = []) :=
  ⟨rfl, c10_call_allowed_emits_nothing initApp ⟨1⟩ ["cand"] "offer" rfl⟩

end SecureChat
